import Mathlib

/-!
Verification of the voice-activity-detection / resampling pipeline of the
Gamate repository (`src-tauri/src/audio/vad.rs` and
`src-tauri/src/audio/continuous_listener.rs`), as a shallow embedding.

Modelling conventions:
* `f32` amplitudes, thresholds and durations are modelled as exact rationals
  (`ℚ`); float rounding is idealized away.
* `Instant` timestamps are explicit `ℚ` parameters (`now`); the source calls
  `Instant::now()` several times inside one function body, all within
  microseconds, so one call is modelled with a single `now`.
* `Instant::duration_since` saturates at zero, `Duration::as_secs` is the
  floor of the (nonnegative) second count, and `as u32` / `as i16` casts
  truncate toward zero; each is modelled explicitly below.
* The external `rubato` crate (the sinc interpolator used when
  `from_rate ≠ 16000`) is not part of this repository; it is passed in as an
  explicit function parameter of type `SincResampler`.
-/

namespace Gamate

/-- Models `now.duration_since(earlier)`: saturating subtraction of timestamps. -/
def durationSince (now earlier : ℚ) : ℚ := max 0 (now - earlier)

/-- Models `Duration::as_secs()`: whole seconds of a nonnegative duration (floor). -/
def durAsSecs (d : ℚ) : ℤ := ⌊d⌋

/-- Models `opt.map(|t| now.duration_since(t)).unwrap_or(Duration::ZERO)`. -/
def optDuration (o : Option ℚ) (now : ℚ) : ℚ :=
  match o with
  | some t => durationSince now t
  | none => 0

/-- Structure `VadConfig` from `vad.rs`. -/
structure VadConfig where
  volume_threshold : ℚ
  silence_duration_secs : ℚ
  min_speech_duration_secs : ℚ
  max_speech_duration_secs : ℚ
  rms_window_size : ℕ
deriving DecidableEq

/-- The `VadConfig::default()` values. -/
def VadConfig.default : VadConfig :=
  { volume_threshold := 1/50
    silence_duration_secs := 3/2
    min_speech_duration_secs := 3/10
    max_speech_duration_secs := 30
    rms_window_size := 1024 }

/-- Enum `VadState` from `vad.rs`. -/
inductive VadState where
  | Idle
  | Speaking
  | Processing
deriving DecidableEq

/-- Structure `VoiceActivityDetector` from `vad.rs`. -/
structure VoiceActivityDetector where
  config : VadConfig
  state : VadState
  speech_start_time : Option ℚ
  last_voice_time : Option ℚ
  audio_buffer : List ℚ
deriving DecidableEq

/-- Constructor `VoiceActivityDetector::new(config)`. -/
def VoiceActivityDetector.new (config : VadConfig) : VoiceActivityDetector :=
  { config := config
    state := VadState.Idle
    speech_start_time := none
    last_voice_time := none
    audio_buffer := [] }

/-- The mean of squares computed inside `calculate_rms`, with the empty-slice guard of the source (`if samples.is_empty() { return 0.0 }`) that prevents the
0/0 division.  `calculate_rms` itself is the square root of this value. -/
def calculate_rms_sq (samples : List ℚ) : ℚ :=
  if samples.isEmpty then 0
  else ((samples.map (fun s => s * s)).sum) / (samples.length : ℚ)

/-- The comparison `calculate_rms(samples) > threshold` of the source, done
without square roots: for a nonnegative threshold `t`,
`sqrt m > t ↔ m > t * t` (with `m = calculate_rms_sq samples ≥ 0`), and for a
negative `t` the comparison is always true since `sqrt m ≥ 0`.  This is exact
for real square roots. -/
def rmsGt (samples : List ℚ) (threshold : ℚ) : Bool :=
  if threshold < 0 then true
  else decide (threshold * threshold < calculate_rms_sq samples)

/-- Function `check_min_speech_duration` from `vad.rs`: true iff the elapsed speech
duration is not below `min_speech_duration_secs` (false when no speech start
is recorded). -/
def check_min_speech_duration (v : VoiceActivityDetector) (now : ℚ) : Bool :=
  match v.speech_start_time with
  | some start =>
      let secs := durationSince now start
      if secs < v.config.min_speech_duration_secs then false else true
  | none => false

/-- Method `reset` from `vad.rs`. -/
def VoiceActivityDetector.reset (v : VoiceActivityDetector) : VoiceActivityDetector :=
  { v with state := VadState.Idle
           speech_start_time := none
           last_voice_time := none
           audio_buffer := [] }

/-- Method `process_audio` from `vad.rs`: one VAD step on an audio chunk at time
`now`; returns the updated detector and the `should_finalize` flag. -/
def process_audio (v : VoiceActivityDetector) (now : ℚ) (audio_chunk : List ℚ) :
    VoiceActivityDetector × Bool :=
  match v.state with
  | VadState.Idle =>
      if rmsGt audio_chunk v.config.volume_threshold then
        ({ v with state := VadState.Speaking
                  speech_start_time := some now
                  last_voice_time := some now
                  audio_buffer := audio_chunk }, false)
      else (v, false)
  | VadState.Speaking =>
      let v1 := { v with audio_buffer := v.audio_buffer ++ audio_chunk }
      let v2 := if rmsGt audio_chunk v1.config.volume_threshold then
                  { v1 with last_voice_time := some now }
                else v1
      let speech_duration := optDuration v2.speech_start_time now
      let silence_duration := optDuration v2.last_voice_time now
      if speech_duration > v2.config.max_speech_duration_secs then
        let v3 := { v2 with state := VadState.Processing }
        (v3, check_min_speech_duration v3 now)
      else if silence_duration > v2.config.silence_duration_secs then
        let v3 := { v2 with state := VadState.Processing }
        (v3, check_min_speech_duration v3 now)
      else (v2, false)
  | VadState.Processing =>
      if rmsGt audio_chunk v.config.volume_threshold then
        ({ v with state := VadState.Speaking
                  speech_start_time := some now
                  last_voice_time := some now
                  audio_buffer := audio_chunk }, false)
      else
        match v.speech_start_time with
        | some speech_end =>
            if durAsSecs (durationSince now speech_end) > 2 then (v.reset, false)
            else (v, false)
        | none => (v, false)

/-- Method `take_audio_buffer` from `vad.rs`: `std::mem::take(&mut self.audio_buffer)`,
returning the buffer and the detector with the buffer emptied. -/
def VoiceActivityDetector.take_audio_buffer (v : VoiceActivityDetector) :
    List ℚ × VoiceActivityDetector :=
  (v.audio_buffer, { v with audio_buffer := [] })

/-- Method `buffer_size` from `vad.rs`. -/
def VoiceActivityDetector.buffer_size (v : VoiceActivityDetector) : ℕ :=
  v.audio_buffer.length

/-- Method `recording_duration` from `vad.rs`. -/
def VoiceActivityDetector.recording_duration (v : VoiceActivityDetector) (now : ℚ) : ℚ :=
  optDuration v.speech_start_time now

/-! ## Resampling (`continuous_listener.rs`, `resample_to_16khz`) -/

/-- Models `s.clamp(-1.0, 1.0)` for an amplitude. -/
def clampUnit (s : ℚ) : ℚ := max (-1) (min s 1)

/-- The `as i16` cast of a float already in range: truncation toward zero. -/
def truncTowardZero (q : ℚ) : ℤ := if q < 0 then ⌈q⌉ else ⌊q⌋

/-- Models `(s.clamp(-1.0, 1.0) * 32767.0) as i16`. -/
def quantizeSample (s : ℚ) : ℤ := truncTowardZero (clampUnit s * 32767)

/-- Models `i16::to_le_bytes`: the two bytes of the 16-bit twos-complement
representation, low byte first. -/
def toLeBytes16 (i : ℤ) : List ℕ :=
  [((i % 65536).toNat) % 256, ((i % 65536).toNat) / 256]

/-- The contribution of one sample to the PCM byte stream. -/
def sampleToLeBytes (s : ℚ) : List ℕ := toLeBytes16 (quantizeSample s)

/-- The quantization loop shared by both branches of `resample_to_16khz`:
`samples.iter().flat_map(|&s| (s.clamp(-1.0,1.0) * 32767.0 as i16).to_le_bytes()).collect()`. -/
def pcmBytes (samples : List ℚ) : List ℕ := samples.flatMap sampleToLeBytes

/-- Constant `TARGET_RATE` from `resample_to_16khz`. -/
def TARGET_RATE : ℕ := 16000

/-- The external `rubato` sinc interpolator (`SincFixedIn::new` + `process`),
abstracted: maps the input batch and source rate to resampled samples, or an
error (e.g. construction failure for degenerate batches). -/
def SincResampler : Type := List ℚ → ℕ → Except String (List ℚ)

/-- Function `resample_to_16khz` from `continuous_listener.rs`: at the target rate,
pure per-sample quantization; otherwise the sinc interpolator followed by the
same quantization, with interpolator errors propagated. -/
def resample_to_16khz (sinc : SincResampler) (samples : List ℚ) (from_rate : ℕ) :
    Except String (List ℕ) :=
  if from_rate = TARGET_RATE then
    Except.ok (pcmBytes samples)
  else
    match sinc samples from_rate with
    | Except.ok resampled => Except.ok (pcmBytes resampled)
    | Except.error e => Except.error e

/-! ## Listener event paths (`continuous_listener.rs`) -/

/-- Enum `ListenerEvent` from `continuous_listener.rs`. -/
inductive ListenerEvent where
  | SpeechStarted
  | SpeechEnded (duration_secs : ℚ)
  | VoiceTranscribed (text : String)
  | AiResponseReady (response : String)
  | AliyunRecognizeRequest (pcm_data : List ℕ) (sample_rate : ℕ) (duration_secs : ℚ)
  | Error (message : String)
deriving DecidableEq

/-- Models `(audio_samples.len() as f32 / duration) as u32`: the empirically computed
capture rate.  For a positive duration this is the floor of the quotient; the
degenerate nonpositive-duration cases mirror the saturating float-to-int cast
(`inf as u32 = u32::MAX`, `NaN as u32 = 0`) and are unreachable behind the
`duration >= 0.3` guards. -/
def computeActualRate (len : ℕ) (duration : ℚ) : ℕ :=
  if 0 < duration then (⌊(len : ℚ) / duration⌋).toNat
  else if len = 0 then 0 else 2 ^ 32 - 1

/-- The post-lock handling, by the poll loop, of a finalized utterance
(`listen_loop_blocking`, the `if let Some((audio_samples, duration))` block):
compute the empirical rate, resample, and on success send
`AliyunRecognizeRequest { pcm_data, sample_rate: actual_sample_rate, duration_secs }`;
on resample failure only log (no event).  Returns the emitted events in order. -/
def listenFinalizeStep (sinc : SincResampler) (audio_samples : List ℚ) (duration : ℚ) :
    List ListenerEvent :=
  let actual_sample_rate := computeActualRate audio_samples.length duration
  match resample_to_16khz sinc audio_samples actual_sample_rate with
  | Except.ok pcm_data =>
      [ListenerEvent.AliyunRecognizeRequest pcm_data actual_sample_rate duration]
  | Except.error _ => []

/-- The Speaking→Processing branch of the poll loop (`listen_loop_blocking`):
take the VAD buffer, read the recording duration, keep the audio only if it is
nonempty and at least 0.3 s long, then dispatch via `listenFinalizeStep`.
Returns the VAD after the take together with the emitted events. -/
def pollFinalize (sinc : SincResampler) (v : VoiceActivityDetector) (now : ℚ) :
    VoiceActivityDetector × List ListenerEvent :=
  let taken := v.take_audio_buffer
  let buffer := taken.1
  let v1 := taken.2
  let duration := v1.recording_duration now
  if buffer.length > 0 ∧ duration ≥ 3/10 then
    (v1, listenFinalizeStep sinc buffer duration)
  else (v1, [])

/-- The observable side effects of `stop_listening`, in program order. -/
inductive StopAction where
  | emit (e : ListenerEvent)
  | clearListening
  | abortTask
deriving DecidableEq

/-- The fields of `ContinuousListener` relevant to `stop_listening`: the VAD
(behind the shared mutex), the `is_listening` flag, and the presence of the
`listen_task` handle and of the `event_tx` sender. -/
structure ContinuousListener where
  vad : VoiceActivityDetector
  is_listening : Bool
  has_listen_task : Bool
  has_event_tx : Bool
deriving DecidableEq

/-- Method `stop_listening` from `continuous_listener.rs`: if `event_tx` is absent,
return with no effect; otherwise, when the VAD buffer is nonempty and the
recording duration is at least the hard-coded 0.3 s, take the buffer, compute
the empirical rate, resample, and on success emit `AliyunRecognizeRequest`;
then clear `is_listening`, abort the listen task (when present), and drop the
sender.  Returns the updated listener and the ordered side-effect trace. -/
def ContinuousListener.stop_listening (sinc : SincResampler) (l : ContinuousListener)
    (now : ℚ) : ContinuousListener × List StopAction :=
  if l.has_event_tx = false then (l, [])
  else
    let buffer_size := l.vad.buffer_size
    let recording_duration := l.vad.recording_duration now
    let step :
        Option (List ℕ × ℕ × ℚ) × VoiceActivityDetector :=
      if buffer_size > 0 ∧ recording_duration ≥ 3/10 then
        let taken := l.vad.take_audio_buffer
        let audio_samples := taken.1
        let duration := recording_duration
        let actual_sample_rate := computeActualRate audio_samples.length duration
        match resample_to_16khz sinc audio_samples actual_sample_rate with
        | Except.ok pcm_data => (some (pcm_data, actual_sample_rate, duration), taken.2)
        | Except.error _ => (none, taken.2)
      else (none, l.vad)
    let emits : List StopAction :=
      match step.1 with
      | some (pcm_data, sample_rate, duration) =>
          [StopAction.emit (ListenerEvent.AliyunRecognizeRequest pcm_data sample_rate duration)]
      | none => []
    let acts := emits ++ [StopAction.clearListening] ++
      (if l.has_listen_task then [StopAction.abortTask] else [])
    ({ l with vad := step.2
              is_listening := false
              has_listen_task := false
              has_event_tx := false }, acts)

/-! ## Helper lemmas and concrete fixtures -/

/-- A benign stand-in for the external sinc interpolator that succeeds and
returns the batch unchanged (the emitted rate field never depends on it). -/
def sincId : SincResampler := fun s _ => Except.ok s

/-- A stand-in for the external sinc interpolator failing to construct
(e.g. a batch shorter than the filter length). -/
def sincFail : SincResampler := fun _ _ => Except.error "construction failed"

theorem rmsGt_empty (thr : ℚ) (h : 0 ≤ thr) : rmsGt [] thr = false := by
  simp only [rmsGt, calculate_rms_sq, List.isEmpty_nil, if_true, if_neg (not_lt.mpr h)]
  exact decide_eq_false (not_lt.mpr (mul_self_nonneg thr))

theorem check_min_iff (v : VoiceActivityDetector) (now s : ℚ)
    (hss : v.speech_start_time = some s) :
    check_min_speech_duration v now = true ↔
      v.config.min_speech_duration_secs ≤ durationSince now s := by
  simp only [check_min_speech_duration, hss]
  split_ifs with h
  · simp only [Bool.false_eq_true, false_iff, not_le]
    exact h
  · simp only [true_iff]
    exact not_lt.mp h

theorem pcmBytes_length (samples : List ℚ) :
    (pcmBytes samples).length = 2 * samples.length := by
  induction samples with
  | nil => simp [pcmBytes]
  | cons s rest ih =>
      simp only [pcmBytes, List.flatMap_cons, List.length_append, List.length_cons] at ih ⊢
      simp only [sampleToLeBytes, toLeBytes16, List.length_cons, List.length_nil]
      omega

/-- Test configuration: silence cutoff 0.5 s, minimum speech length 10 s. -/
def cfgLongMin : VadConfig :=
  { volume_threshold := 1/10
    silence_duration_secs := 1/2
    min_speech_duration_secs := 10
    max_speech_duration_secs := 30
    rms_window_size := 1024 }

/-- Test configuration: silence cutoff 1.5 s, minimum speech length 0.1 s. -/
def cfgShortMin : VadConfig :=
  { volume_threshold := 1/10
    silence_duration_secs := 3/2
    min_speech_duration_secs := 1/10
    max_speech_duration_secs := 30
    rms_window_size := 1024 }

/-- A detector in the Speaking state: speech onset and last loud chunk both at
time 0, one buffered sample, short minimum speech length. -/
def vadSpeaking : VoiceActivityDetector :=
  { config := cfgShortMin
    state := VadState.Speaking
    speech_start_time := some 0
    last_voice_time := some 0
    audio_buffer := [1/2] }

/-- A detector in the Processing state with speech onset at time 0. -/
def vadProcessing : VoiceActivityDetector :=
  { config := VadConfig.default
    state := VadState.Processing
    speech_start_time := some 0
    last_voice_time := some 0
    audio_buffer := [1/2] }

/-- An idle detector with the default configuration. -/
def vadIdle : VoiceActivityDetector := VoiceActivityDetector.new VadConfig.default

/-! ## Claims about the VAD state machine -/

/-- Claim C7 (confirmed): while Idle, the first chunk whose RMS exceeds
`volume_threshold` transitions to Speaking, records the onset and last-voice
times as `now`, and the buffer becomes exactly that chunk (cleared, then the
triggering chunk appended — not dropped); a chunk at or below the threshold
leaves the detector entirely unchanged and returns false. -/
theorem idle_transition_spec (v : VoiceActivityDetector) (now : ℚ) (chunk : List ℚ)
    (hst : v.state = VadState.Idle) :
    (rmsGt chunk v.config.volume_threshold = true →
       process_audio v now chunk
         = ({ v with state := VadState.Speaking
                     speech_start_time := some now
                     last_voice_time := some now
                     audio_buffer := chunk }, false))
    ∧ (rmsGt chunk v.config.volume_threshold = false →
       process_audio v now chunk = (v, false)) := by
  obtain ⟨cfg, st, sst, lvt, buf⟩ := v
  simp only at hst
  subst hst
  constructor
  · intro h
    simp [process_audio, h]
  · intro h
    simp [process_audio, h]

/-- Claim C7 witness: a loud chunk (amplitude 1/2 against threshold 1/50)
fed to the idle default detector at time 0. -/
theorem idle_transition_spec_witness :
    vadIdle.state = VadState.Idle
    ∧ process_audio vadIdle 0 [1/2]
        = ({ vadIdle with state := VadState.Speaking
                          speech_start_time := some 0
                          last_voice_time := some 0
                          audio_buffer := [1/2] }, false) := by
  refine ⟨rfl, (idle_transition_spec vadIdle 0 [1/2] rfl).1 ?_⟩
  norm_num [rmsGt, calculate_rms_sq, vadIdle, VoiceActivityDetector.new, VadConfig.default]

/-- Claim C8 (confirmed): `take_audio_buffer` returns exactly the accumulated
buffer and leaves it empty, with state and both timestamps untouched; a second
immediate call returns the empty list. -/
theorem take_audio_buffer_spec (v : VoiceActivityDetector) :
    v.take_audio_buffer.1 = v.audio_buffer
    ∧ v.take_audio_buffer.2.buffer_size = 0
    ∧ v.take_audio_buffer.2.state = v.state
    ∧ v.take_audio_buffer.2.speech_start_time = v.speech_start_time
    ∧ v.take_audio_buffer.2.last_voice_time = v.last_voice_time
    ∧ v.take_audio_buffer.2.take_audio_buffer.1 = [] := by
  simp [VoiceActivityDetector.take_audio_buffer, VoiceActivityDetector.buffer_size]

/-- Claim C9 (confirmed): `process_audio` returns true only from the Speaking
state, and whenever it returns true the new state is Processing; calls in the
Idle or Processing state always return false. -/
theorem finalize_flag_only_on_speaking_to_processing
    (v : VoiceActivityDetector) (now : ℚ) (chunk : List ℚ) :
    ((process_audio v now chunk).2 = true →
       v.state = VadState.Speaking
       ∧ (process_audio v now chunk).1.state = VadState.Processing)
    ∧ (v.state = VadState.Idle → (process_audio v now chunk).2 = false)
    ∧ (v.state = VadState.Processing → (process_audio v now chunk).2 = false) := by
  obtain ⟨cfg, st, sst, lvt, buf⟩ := v
  cases st with
  | Idle =>
      have hf : (process_audio ⟨cfg, VadState.Idle, sst, lvt, buf⟩ now chunk).2 = false := by
        simp only [process_audio]
        split <;> rfl
      exact ⟨fun h => absurd h (by simp [hf]), fun _ => hf, fun h => by simp at h⟩
  | Speaking =>
      refine ⟨fun h => ⟨rfl, ?_⟩, fun h => by simp at h, fun h => by simp at h⟩
      revert h
      simp only [process_audio]
      split <;> split <;>
        first
          | exact fun _ => rfl
          | (split <;>
              first
                | exact fun _ => rfl
                | exact fun h => absurd h (by simp))
  | Processing =>
      have hf : (process_audio ⟨cfg, VadState.Processing, sst, lvt, buf⟩ now chunk).2
          = false := by
        simp only [process_audio]
        split
        · rfl
        · split
          · split <;> rfl
          · rfl
      exact ⟨fun h => absurd h (by simp [hf]), fun h => by simp at h, fun _ => hf⟩

/-- Claim C9 witness: a silent chunk at time 1 against `vadSpeaking`
(silence 1 s > cutoff 0.5 s... here cutoff is 1.5 s, so use time 2). -/
theorem finalize_flag_only_on_speaking_to_processing_witness :
    (process_audio vadSpeaking 2 [0]).2 = true
    ∧ vadSpeaking.state = VadState.Speaking
    ∧ (process_audio vadSpeaking 2 [0]).1.state = VadState.Processing := by
  have h2 : (process_audio vadSpeaking 2 [0]).2 = true := by
    norm_num [process_audio, vadSpeaking, cfgShortMin, rmsGt, calculate_rms_sq,
      optDuration, durationSince, check_min_speech_duration]
  have h := (finalize_flag_only_on_speaking_to_processing vadSpeaking 2 [0]).1 h2
  exact ⟨h2, h.1, h.2⟩

/-- Claim C10 (confirmed): the mean-of-squares behind `calculate_rms` is
guarded for the empty slice (it returns 0 rather than dividing 0 by 0), so —
for the positive thresholds the configuration prescribes — an empty chunk
neither starts speech from Idle nor refreshes the last-voice time while
Speaking. -/
theorem empty_chunk_inert (v : VoiceActivityDetector) (now : ℚ)
    (h : 0 < v.config.volume_threshold) :
    calculate_rms_sq [] = 0
    ∧ (v.state = VadState.Idle → process_audio v now [] = (v, false))
    ∧ (v.state = VadState.Speaking →
        (process_audio v now []).1.last_voice_time = v.last_voice_time) := by
  obtain ⟨cfg, st, sst, lvt, buf⟩ := v
  replace h : 0 < cfg.volume_threshold := h
  have hrms : rmsGt [] cfg.volume_threshold = false := rmsGt_empty _ h.le
  refine ⟨by simp [calculate_rms_sq], fun hst => ?_, fun hst => ?_⟩
  · replace hst : st = VadState.Idle := hst
    subst hst
    simp [process_audio, hrms]
  · replace hst : st = VadState.Speaking := hst
    subst hst
    simp only [process_audio, hrms, Bool.false_eq_true, if_false]
    split
    · rfl
    · split <;> rfl

/-- Claim C10 witness: the idle default detector fed the empty chunk. -/
theorem empty_chunk_inert_witness :
    0 < vadIdle.config.volume_threshold
    ∧ process_audio vadIdle 0 [] = (vadIdle, false) := by
  have h : 0 < vadIdle.config.volume_threshold := by
    norm_num [vadIdle, VoiceActivityDetector.new, VadConfig.default]
  exact ⟨h, (empty_chunk_inert vadIdle 0 h).2.1 rfl⟩

/-- Claim C4 counterexample: with `min_speech_duration_secs = 10`, a loud
chunk at time 0 starts Speaking; a silent chunk at time 1 exceeds the 0.5 s
silence cutoff, the state does become Processing, but `process_audio` returns
false (the min-speech check fails), contradicting the claim that the call
returns true regardless of `min_speech_duration_secs`. -/
theorem silence_finalize_can_return_false :
    (process_audio (VoiceActivityDetector.new cfgLongMin) 0 [1/2]).1.state = VadState.Speaking
    ∧ (process_audio (VoiceActivityDetector.new cfgLongMin) 0 [1/2]).1.last_voice_time = some 0
    ∧ durationSince 1 0 > cfgLongMin.silence_duration_secs
    ∧ (process_audio ((process_audio (VoiceActivityDetector.new cfgLongMin) 0 [1/2]).1)
        1 [0]).1.state = VadState.Processing
    ∧ (process_audio ((process_audio (VoiceActivityDetector.new cfgLongMin) 0 [1/2]).1)
        1 [0]).2 = false := by
  norm_num [process_audio, VoiceActivityDetector.new, cfgLongMin, rmsGt, calculate_rms_sq,
    optDuration, durationSince, check_min_speech_duration]

/-- Claim C4 amended: while Speaking, once the silence since the last
above-threshold chunk exceeds `silence_duration_secs`, the next silent
`process_audio` call transitions to Processing, and it returns true if and
only if the elapsed speech duration has reached `min_speech_duration_secs`
(the `check_min_speech_duration` result) — not unconditionally true. -/
theorem silence_finalize_processing_and_min_check
    (v : VoiceActivityDetector) (now l s : ℚ) (chunk : List ℚ)
    (hst : v.state = VadState.Speaking)
    (hrms : rmsGt chunk v.config.volume_threshold = false)
    (hlv : v.last_voice_time = some l)
    (hss : v.speech_start_time = some s)
    (hsil : durationSince now l > v.config.silence_duration_secs) :
    (process_audio v now chunk).1.state = VadState.Processing
    ∧ ((process_audio v now chunk).2 = true ↔
        v.config.min_speech_duration_secs ≤ durationSince now s) := by
  obtain ⟨cfg, st, sst, lvt, buf⟩ := v
  replace hst : st = VadState.Speaking := hst
  replace hrms : rmsGt chunk cfg.volume_threshold = false := hrms
  replace hlv : lvt = some l := hlv
  replace hss : sst = some s := hss
  replace hsil : durationSince now l > cfg.silence_duration_secs := hsil
  subst hst hlv hss
  simp only [process_audio, hrms, Bool.false_eq_true, if_false, optDuration]
  split_ifs with h1
  · exact ⟨rfl,
      check_min_iff ⟨cfg, VadState.Processing, some s, some l, buf ++ chunk⟩ now s rfl⟩
  · exact ⟨rfl,
      check_min_iff ⟨cfg, VadState.Processing, some s, some l, buf ++ chunk⟩ now s rfl⟩

/-- Claim C4 witness: `vadSpeaking` (min 0.1 s, silence cutoff 1.5 s, last
voice at 0) fed a silent chunk at time 2: silence 2 s > 1.5 s, speech length
2 s ≥ 0.1 s, so the state becomes Processing and the call returns true. -/
theorem silence_finalize_processing_and_min_check_witness :
    (process_audio vadSpeaking 2 [0]).1.state = VadState.Processing
    ∧ (process_audio vadSpeaking 2 [0]).2 = true := by
  have hrms : rmsGt [0] vadSpeaking.config.volume_threshold = false := by
    norm_num [rmsGt, calculate_rms_sq, vadSpeaking, cfgShortMin]
  have hsil : durationSince 2 0 > vadSpeaking.config.silence_duration_secs := by
    norm_num [durationSince, vadSpeaking, cfgShortMin]
  have h := silence_finalize_processing_and_min_check vadSpeaking 2 0 0 [0]
    rfl hrms rfl rfl hsil
  refine ⟨h.1, h.2.mpr ?_⟩
  norm_num [durationSince, vadSpeaking, cfgShortMin]

/-- Claim C5 counterexample: with silence cutoff 1.5 s, speech starts at time
0 and the detector enters Processing on the silent chunk at time 2.  On the
silent chunk at time 3.5 — only 1.5 s after entering Processing, below the
claimed ~2 s timeout — the detector nevertheless resets to Idle, because the
code measures the timeout from the recorded speech onset (time 0), not from
entry into Processing. -/
theorem processing_reset_before_two_secs_in_processing :
    (process_audio (VoiceActivityDetector.new cfgShortMin) 0 [1/2]).1.state = VadState.Speaking
    ∧ (process_audio ((process_audio (VoiceActivityDetector.new cfgShortMin) 0 [1/2]).1)
        2 [0]).1.state = VadState.Processing
    ∧ ((7:ℚ)/2 - 2 < 2)
    ∧ (process_audio ((process_audio ((process_audio
        (VoiceActivityDetector.new cfgShortMin) 0 [1/2]).1) 2 [0]).1) (7/2) [0]).1.state
        = VadState.Idle := by
  norm_num [process_audio, VoiceActivityDetector.new, cfgShortMin, rmsGt, calculate_rms_sq,
    optDuration, durationSince, check_min_speech_duration, durAsSecs,
    VoiceActivityDetector.reset]

/-- Claim C5 amended: in the Processing state, a chunk at or below the
threshold resets the detector to Idle exactly when strictly more than 2 whole
seconds (`Duration::as_secs() > 2`, i.e. elapsed ≥ 3 s) have passed since the
recorded speech-start time — the utterance onset, not the moment Processing
was entered; otherwise the detector is left unchanged.  The call returns
false either way. -/
theorem processing_reset_iff_three_secs_since_onset
    (v : VoiceActivityDetector) (now s : ℚ) (chunk : List ℚ)
    (hst : v.state = VadState.Processing)
    (hrms : rmsGt chunk v.config.volume_threshold = false)
    (hss : v.speech_start_time = some s) :
    (durAsSecs (durationSince now s) > 2 →
        process_audio v now chunk = (v.reset, false)
        ∧ v.reset.state = VadState.Idle)
    ∧ (¬ durAsSecs (durationSince now s) > 2 →
        process_audio v now chunk = (v, false)) := by
  obtain ⟨cfg, st, sst, lvt, buf⟩ := v
  replace hst : st = VadState.Processing := hst
  replace hrms : rmsGt chunk cfg.volume_threshold = false := hrms
  replace hss : sst = some s := hss
  subst hst hss
  simp only [process_audio, hrms, Bool.false_eq_true, if_false]
  constructor <;> intro h
  · rw [if_pos h]
    exact ⟨rfl, rfl⟩
  · rw [if_neg h]

/-- Claim C5 witness: `vadProcessing` (onset at time 0) fed a silent chunk at
time 3.5: the floor of the elapsed 3.5 s is 3 > 2, so the detector resets. -/
theorem processing_reset_iff_three_secs_since_onset_witness :
    durAsSecs (durationSince (7/2) 0) > 2
    ∧ process_audio vadProcessing (7/2) [0] = (vadProcessing.reset, false) := by
  have hd : durAsSecs (durationSince (7/2) 0) > 2 := by
    norm_num [durAsSecs, durationSince]
  have hrms : rmsGt [0] vadProcessing.config.volume_threshold = false := by
    norm_num [rmsGt, calculate_rms_sq, vadProcessing, VadConfig.default]
  exact ⟨hd, ((processing_reset_iff_three_secs_since_onset vadProcessing (7/2) 0 [0]
    rfl hrms rfl).1 hd).1⟩

/-! ## Claims about the resampler and the listener event paths -/

/-- Claim C6 (confirmed): at the target rate 16 kHz, `resample_to_16khz` is
pure per-sample quantization — each sample clamped to [-1, 1], multiplied by
32767, truncated to a signed 16-bit integer and emitted as two little-endian
bytes, with no filtering (the interpolator is never consulted) — and the
output has exactly two bytes per input sample. -/
theorem resample_same_rate_is_pure_quantization (sinc : SincResampler)
    (samples : List ℚ) :
    resample_to_16khz sinc samples TARGET_RATE
      = Except.ok (samples.flatMap (fun s =>
          toLeBytes16 (truncTowardZero (max (-1) (min s 1) * 32767))))
    ∧ (samples.flatMap (fun s =>
          toLeBytes16 (truncTowardZero (max (-1) (min s 1) * 32767)))).length
        = 2 * samples.length :=
  ⟨rfl, pcmBytes_length samples⟩

/-- A detector that has just transitioned Speaking→Processing: onset at time
0, three buffered samples. -/
def vadFinalized : VoiceActivityDetector :=
  { config := VadConfig.default
    state := VadState.Processing
    speech_start_time := some 0
    last_voice_time := some 0
    audio_buffer := [0, 0, 0] }

/-- Claim C1 (code bug): the finalize path of the poll loop emits the utterance
event with `sample_rate` set to the *empirically computed capture rate*, not
the 16000 Hz target, even though `pcm_data` holds the audio resampled to
16000 Hz.  Here 3 samples over 0.3 s give an empirical rate of 10 Hz and the
emitted event carries 10 (realistic analogue: 48000 samples over 1 s emit
48000).  The downstream consumer (`aliyun_voice_service.rs`) hard-codes
16000 Hz when interpreting the PCM, so the field contradicts the payload. -/
theorem utterance_event_carries_empirical_rate :
    (pollFinalize sincId vadFinalized (3/10)).2
      = [ListenerEvent.AliyunRecognizeRequest [0, 0, 0, 0, 0, 0] 10 (3/10)]
    ∧ (10 : ℕ) ≠ TARGET_RATE := by
  norm_num [pollFinalize, vadFinalized, VoiceActivityDetector.take_audio_buffer,
    VoiceActivityDetector.recording_duration, optDuration, durationSince,
    listenFinalizeStep, computeActualRate, resample_to_16khz, TARGET_RATE, sincId,
    pcmBytes, sampleToLeBytes, quantizeSample, clampUnit, truncTowardZero, toLeBytes16,
    VadConfig.default] <;> simp

/-- A running listener whose live buffer (one sample, onset at time 0) uses a
configured minimum speech duration of 0.2 s. -/
def lStopEarly : ContinuousListener :=
  { vad := { config := { volume_threshold := 1/10
                         silence_duration_secs := 3/2
                         min_speech_duration_secs := 1/5
                         max_speech_duration_secs := 30
                         rms_window_size := 1024 }
             state := VadState.Speaking
             speech_start_time := some 0
             last_voice_time := some 0
             audio_buffer := [1/2] }
    is_listening := true
    has_listen_task := true
    has_event_tx := true }

/-- Claim C2 counterexample: at time 0.25 the recording duration of the live
buffer, 0.25 s is at least the configured `min_speech_duration_secs = 0.2`,
so by the claim `stop_listening` must flush and emit; the code compares
against a hard-coded 0.3 s instead, skips the flush entirely (the buffer is
not even taken) and emits nothing. -/
theorem stop_flush_not_at_configured_min :
    lStopEarly.vad.config.min_speech_duration_secs
        ≤ lStopEarly.vad.recording_duration (1/4)
    ∧ lStopEarly.vad.buffer_size ≠ 0
    ∧ (lStopEarly.stop_listening sincId (1/4)).2
        = [StopAction.clearListening, StopAction.abortTask]
    ∧ (lStopEarly.stop_listening sincId (1/4)).1.vad.audio_buffer = [1/2] := by
  norm_num [ContinuousListener.stop_listening, lStopEarly,
    VoiceActivityDetector.buffer_size, VoiceActivityDetector.recording_duration,
    optDuration, durationSince]

/-- Claim C2 amended: with the sender present and the task running, if the
VAD buffer is nonempty and the recording duration is at least the hard-coded
0.3 s (not the configured `min_speech_duration_secs`), `stop_listening` takes
the buffer, resamples it and — when resampling succeeds — emits the
utterance event *before* clearing the running flag and aborting the poll
task, leaving the buffer empty; with an empty or shorter-than-0.3 s buffer it
emits nothing. -/
theorem stop_flush_at_hardcoded_threshold (sinc : SincResampler)
    (l : ContinuousListener) (now : ℚ)
    (htx : l.has_event_tx = true) (htask : l.has_listen_task = true) :
    (∀ pcm : List ℕ,
        0 < l.vad.buffer_size →
        3/10 ≤ l.vad.recording_duration now →
        resample_to_16khz sinc l.vad.audio_buffer
            (computeActualRate l.vad.audio_buffer.length (l.vad.recording_duration now))
          = Except.ok pcm →
        (l.stop_listening sinc now).2
          = [StopAction.emit (ListenerEvent.AliyunRecognizeRequest pcm
               (computeActualRate l.vad.audio_buffer.length (l.vad.recording_duration now))
               (l.vad.recording_duration now)),
             StopAction.clearListening, StopAction.abortTask]
        ∧ (l.stop_listening sinc now).1.vad.audio_buffer = []
        ∧ (l.stop_listening sinc now).1.is_listening = false)
    ∧ ((l.vad.buffer_size = 0 ∨ l.vad.recording_duration now < 3/10) →
        (l.stop_listening sinc now).2
          = [StopAction.clearListening, StopAction.abortTask]) := by
  have htx2 : ¬ l.has_event_tx = false := by simp [htx]
  constructor
  · intro pcm hbuf hdur hres
    simp only [ContinuousListener.stop_listening, if_neg htx2,
      VoiceActivityDetector.take_audio_buffer, VoiceActivityDetector.buffer_size]
    rw [if_pos ⟨hbuf, hdur⟩, hres]
    simp [htask]
  · intro h
    simp only [ContinuousListener.stop_listening, if_neg htx2,
      VoiceActivityDetector.take_audio_buffer, VoiceActivityDetector.buffer_size]
    rw [if_neg ?hguard]
    case hguard =>
      rintro ⟨h1, h2⟩
      rcases h with h | h
      · rw [VoiceActivityDetector.buffer_size] at h
        omega
      · exact absurd h2 (not_le.mpr h)
    simp [htask]

/-- A running listener with two buffered half-amplitude samples and onset at
time 0 (default configuration). -/
def lStopFlush : ContinuousListener :=
  { vad := { config := VadConfig.default
             state := VadState.Speaking
             speech_start_time := some 0
             last_voice_time := some 0
             audio_buffer := [1/2, 1/2] }
    is_listening := true
    has_listen_task := true
    has_event_tx := true }

/-- Claim C2 witness: stopping `lStopFlush` at time 0.5 (duration 0.5 s ≥
0.3 s, empirical rate 4 Hz, quantized bytes `[255, 63]` per half-amplitude
sample) emits the utterance event before the teardown actions. -/
theorem stop_flush_at_hardcoded_threshold_witness :
    computeActualRate lStopFlush.vad.audio_buffer.length
        (lStopFlush.vad.recording_duration (1/2)) = 4
    ∧ lStopFlush.vad.recording_duration (1/2) = 1/2
    ∧ (lStopFlush.stop_listening sincId (1/2)).2
        = [StopAction.emit (ListenerEvent.AliyunRecognizeRequest [255, 63, 255, 63]
             (computeActualRate lStopFlush.vad.audio_buffer.length
               (lStopFlush.vad.recording_duration (1/2)))
             (lStopFlush.vad.recording_duration (1/2))),
           StopAction.clearListening, StopAction.abortTask] := by
  refine ⟨?_, ?_, ?_⟩
  · norm_num [computeActualRate, lStopFlush, VoiceActivityDetector.recording_duration,
      optDuration, durationSince] <;> simp
  · norm_num [lStopFlush, VoiceActivityDetector.recording_duration,
      optDuration, durationSince]
  · refine (((stop_flush_at_hardcoded_threshold sincId lStopFlush (1/2) rfl rfl).1
      [255, 63, 255, 63] ?_ ?_ ?_).1)
    · norm_num [lStopFlush, VoiceActivityDetector.buffer_size]
    · norm_num [lStopFlush, VoiceActivityDetector.recording_duration,
        optDuration, durationSince]
    · norm_num [lStopFlush, resample_to_16khz, computeActualRate,
        VoiceActivityDetector.recording_duration, optDuration, durationSince,
        TARGET_RATE, sincId, pcmBytes, sampleToLeBytes, quantizeSample, clampUnit,
        truncTowardZero, toLeBytes16] <;> simp

/-- Claim C3 counterexample: a finalized 1-sample utterance of duration
0.01 s (empirical rate 100 Hz ≠ 16000 Hz) whose resampling fails: the poll
finalize path of the poll loop emits no event at all — in particular no error event —
contradicting the claim that a resample failure always emits one. -/
theorem resample_failure_no_event_concrete :
    resample_to_16khz sincFail [0]
        (computeActualRate ([0] : List ℚ).length (1/100))
      = Except.error "construction failed"
    ∧ listenFinalizeStep sincFail [0] (1/100) = [] := by
  norm_num [resample_to_16khz, computeActualRate, TARGET_RATE, sincFail,
    listenFinalizeStep] <;> simp

/-- Claim C3 amended: when resampling of a finalized utterance fails, the
listener only logs the failure — no event of any kind is emitted: the poll
finalize path produces an empty event list, and a stop-time flush whose
resample fails contributes no emit action to the stop trace; the
`Error { message }` event variant is never sent on either path. -/
theorem resample_failure_emits_nothing (sinc : SincResampler)
    (audio : List ℚ) (dur : ℚ) (e1 : String)
    (l : ContinuousListener) (now : ℚ) (e2 : String)
    (hfail1 : resample_to_16khz sinc audio (computeActualRate audio.length dur)
        = Except.error e1)
    (hfail2 : resample_to_16khz sinc l.vad.audio_buffer
        (computeActualRate l.vad.audio_buffer.length (l.vad.recording_duration now))
        = Except.error e2) :
    listenFinalizeStep sinc audio dur = []
    ∧ ∀ ev : ListenerEvent, StopAction.emit ev ∉ (l.stop_listening sinc now).2 := by
  refine ⟨?_, ?_⟩
  · simp only [listenFinalizeStep, hfail1]
  · intro ev
    by_cases htx : l.has_event_tx = false
    · simp [ContinuousListener.stop_listening, htx]
    · simp only [ContinuousListener.stop_listening, if_neg htx,
        VoiceActivityDetector.take_audio_buffer, VoiceActivityDetector.buffer_size]
      split_ifs with h1 h2 <;> simp [hfail2]

/-- A running listener with one silent buffered sample and onset at time 0. -/
def lStopFailing : ContinuousListener :=
  { vad := { config := VadConfig.default
             state := VadState.Speaking
             speech_start_time := some 0
             last_voice_time := some 0
             audio_buffer := [0] }
    is_listening := true
    has_listen_task := true
    has_event_tx := true }

/-- Claim C3 witness: with the failing interpolator, the finalize path of a
0.01 s utterance emits nothing, and stopping `lStopFailing` at time 0.5
(buffer live, duration 0.5 s ≥ 0.3 s, rate 2 Hz, resample fails) puts no
error event — indeed no emit at all — on the stop trace. -/
theorem resample_failure_emits_nothing_witness :
    listenFinalizeStep sincFail [0] (1/100) = []
    ∧ StopAction.emit (ListenerEvent.Error "construction failed")
        ∉ (lStopFailing.stop_listening sincFail (1/2)).2 := by
  have h := resample_failure_emits_nothing sincFail [0] (1/100) "construction failed"
    lStopFailing (1/2) "construction failed"
    (by norm_num [resample_to_16khz, computeActualRate, TARGET_RATE, sincFail] <;> simp)
    (by norm_num [resample_to_16khz, computeActualRate, TARGET_RATE, sincFail,
      lStopFailing, VoiceActivityDetector.recording_duration, optDuration,
      durationSince] <;> simp)
  exact ⟨h.1, h.2 _⟩

end Gamate
